import Mathlib

/-!
Shallow embedding of the routing-simulation substrate
(`packet.py`, `link.py`, `client.py`, `router.py`, `network.py`).

Addresses are strings; queues are FIFO lists (head = oldest element);
wall-clock reads (`time.time()`) are passed in as explicit parameters.
Each spawned delivery thread (`Link._send_helper`) is modelled by the
state transformation it performs once it runs; `time.sleep` has no
state effect and is dropped.

A central point of the embedding is Python attribute lookup.  The class
body of `packet.py` defines a fixed set of attribute names (camelCase:
`srcAddr`, `addToRoute`, ...), while `link.py` and `client.py` access
snake_case names (`src_addr`, `add_to_route`, ...) on packet instances.
Python resolves attribute names dynamically and raises `AttributeError`
for a name the class does not define, so attribute access is embedded
as a fallible operation (`Packet.getAttr`) checked against the exact
list of names defined by `packet.py`.
-/

namespace Routing

abbrev Addr := String

/-- Python exceptions that the embedded substrate code can raise.
`attributeError ty name` models `AttributeError` raised when attribute
`name` is looked up on an instance of class `ty` that does not define it. -/
inductive PyError where
  | attributeError (typeName : String) (attrName : String)
deriving DecidableEq, Repr

/-! ### packet.py -/

/-- The `Packet` record: `kind`, `srcAddr`, `dstAddr`, `content`, `route`,
exactly the instance attributes assigned in `Packet.__init__`.
`content` is `Option String` (`None` or a string), per the class doc
("Must be a string"). -/
structure Packet where
  kind : Nat
  srcAddr : Addr
  dstAddr : Addr
  content : Option String
  route : List Addr
deriving DecidableEq, Repr

/-- Class constant `Packet.TRACEROUTE = 1`. -/
def Packet.TRACEROUTE : Nat := 1

/-- Class constant `Packet.ROUTING = 2`. -/
def Packet.ROUTING : Nat := 2

/-- `Packet.__init__(kind, srcAddr, dstAddr, content=None)`: stores the
four arguments and initializes `route = [srcAddr]`. -/
def Packet.init (kind : Nat) (srcAddr dstAddr : Addr) (content : Option String) : Packet :=
  { kind := kind, srcAddr := srcAddr, dstAddr := dstAddr,
    content := content, route := [srcAddr] }

/-- `Packet.copy`: `content = deepcopy(self.content)` (strings are
immutable, so the value is unchanged), then a fresh
`Packet(kind, srcAddr, dstAddr, content=content)` whose `route` is
overwritten with `list(self.route)` (same elements, fresh list object;
object identity is treated separately in the heap model below). -/
def Packet.copy (p : Packet) : Packet :=
  let content := p.content
  let q := Packet.init p.kind p.srcAddr p.dstAddr content
  { q with route := p.route }

/-- `Packet.isTraceroute`: `self.kind == Packet.TRACEROUTE`. -/
def Packet.isTraceroute (p : Packet) : Bool :=
  p.kind == Packet.TRACEROUTE

/-- `Packet.isRouting`: `self.kind == Packet.ROUTING`. -/
def Packet.isRouting (p : Packet) : Bool :=
  p.kind == Packet.ROUTING

/-- `Packet.addToRoute(addr)`: `self.route.append(addr)`. -/
def Packet.addToRoute (p : Packet) (addr : Addr) : Packet :=
  { p with route := p.route ++ [addr] }

/-- `Packet.getRoute`: returns `self.route`. -/
def Packet.getRoute (p : Packet) : List Addr :=
  p.route

/-- The attribute names defined on `Packet` instances by `packet.py`:
the two class constants, the instance attributes assigned in `__init__`,
and the methods of the class body (Python double-underscore attributes
are irrelevant here and omitted). -/
def Packet.attrNames : List String :=
  ["TRACEROUTE", "ROUTING",
   "kind", "srcAddr", "dstAddr", "content", "route",
   "copy", "isTraceroute", "isRouting", "getContent", "addToRoute",
   "getRoute", "animateSend"]

/-- Python attribute access `p.<name>` on a `Packet` instance: yields the
attribute value `v` when `packet.py` defines `name`, and raises
`AttributeError` otherwise.  The caller supplies as `v` the value the
name would denote if it resolved. -/
def Packet.getAttr {α : Type} (name : String) (v : α) : Except PyError α :=
  if name ∈ Packet.attrNames then .ok v else .error (.attributeError "Packet" name)

/-! ### link.py -/

/-- The `Link` record: two FIFO queues (`q12` carries traffic `e1 → e2`,
`q21` the reverse; list head = oldest enqueued packet), the two scaled
directional latencies, the latency multiplier and the endpoint
addresses. -/
structure Link where
  q12 : List Packet
  q21 : List Packet
  l12 : Nat
  l21 : Nat
  latency_multiplier : Nat
  e1 : Addr
  e2 : Addr
deriving DecidableEq, Repr

/-- `Link.__init__(e1, e2, l12, l21, latency)`: empty queues,
`l12 = l12 * latency`, `l21 = l21 * latency`. -/
def Link.init (e1 e2 : Addr) (l12 l21 latency : Nat) : Link :=
  { q12 := [], q21 := [], l12 := l12 * latency, l21 := l21 * latency,
    latency_multiplier := latency, e1 := e1, e2 := e2 }

/-- `Link._send_helper(packet, src)`, the body of the spawned delivery
thread: on `src == e1` it runs `packet.add_to_route(self.e2)` and
`packet.animate_send(self.e1, self.e2, self.l12)` (both are Python
attribute lookups on the packet, embedded via `Packet.getAttr`), sleeps
`l12 / 1000`, then `self.q12.put(packet)`; symmetrically for `src == e2`;
any other `src` falls through to the final `sys.stdout.flush()` with no
queue effect. -/
def Link.sendHelper (lk : Link) (packet : Packet) (src : Addr) : Except PyError Link :=
  if src = lk.e1 then do
    let m ← Packet.getAttr "add_to_route" Packet.addToRoute
    let packet := m packet lk.e2
    let _ ← Packet.getAttr "animate_send" ()
    .ok { lk with q12 := lk.q12 ++ [packet] }
  else if src = lk.e2 then do
    let m ← Packet.getAttr "add_to_route" Packet.addToRoute
    let packet := m packet lk.e1
    let _ ← Packet.getAttr "animate_send" ()
    .ok { lk with q21 := lk.q21 ++ [packet] }
  else
    .ok lk

/-- The synchronous part of `Link.send(packet, src)`: the content assert
(`content : Option String`, so `isinstance(content, str)` always holds
when content is set), then `p = packet.copy()` and the spawn of
`_send_helper(p, src)`; returns the argument pair handed to the spawned
thread. -/
def Link.sendSpawn (packet : Packet) (src : Addr) : Packet × Addr :=
  (packet.copy, src)

/-- The complete effect of `Link.send(packet, src)` once the spawned
`_send_helper` thread has run: copy, then the helper body. -/
def Link.sendEffect (lk : Link) (packet : Packet) (src : Addr) : Except PyError Link :=
  let ps := Link.sendSpawn packet src
  lk.sendHelper ps.1 ps.2

/-- `Link.recv(dst)`: for `dst == e1` a non-blocking `q21.get_nowait()`
(oldest packet, or `None` when empty); for `dst == e2` the same on `q12`;
any other `dst` falls off the end of the function and returns `None`.
Returns the received packet (if any) and the link state afterwards. -/
def Link.recv (lk : Link) (dst : Addr) : Option Packet × Link :=
  if dst = lk.e1 then
    match lk.q21 with
    | [] => (none, lk)
    | p :: rest => (some p, { lk with q21 := rest })
  else if dst = lk.e2 then
    match lk.q12 with
    | [] => (none, lk)
    | p :: rest => (some p, { lk with q12 := rest })
  else
    (none, lk)

/-! ### client.py -/

/-- One invocation of the client's `update_fn` callback
(`Network.update_route`), recorded as the argument triple. -/
structure ObserverCall where
  src : Addr
  dst : Addr
  route : List Addr
deriving DecidableEq, Repr

/-- The `Client` record (`Client.__init__`): `addr`, `all_clients` (the
full `client_params` list passed by `Network.parse_clients`), `send_rate`,
`last_time`, the optional single `link` (`None` until an `add` change is
drained), `sending` and `keep_running`.  The `update_fn` callback and the
`link_changes` mailbox are modelled at the call sites. -/
structure Client where
  addr : Addr
  all_clients : List Addr
  send_rate : Nat
  last_time : Nat
  link : Option Link
  sending : Bool
  keep_running : Bool
deriving DecidableEq, Repr

/-- `Client.__init__(addr, all_clients, send_rate, update_fn)`. -/
def Client.init (addr : Addr) (all_clients : List Addr) (send_rate : Nat) : Client :=
  { addr := addr, all_clients := all_clients, send_rate := send_rate,
    last_time := 0, link := none, sending := true, keep_running := true }

/-- `Client.handle_packet(packet)`: when `packet.kind == Packet.TRACEROUTE`,
call `self.update_fn(packet.src_addr, packet.dst_addr, packet.route)` —
three Python attribute lookups on the packet (evaluated left to right),
then the observer call; otherwise do nothing.  Returns the list of
observer calls made, or the exception raised. -/
def Client.handle_packet (packet : Packet) : Except PyError (List ObserverCall) :=
  if packet.kind = Packet.TRACEROUTE then do
    let s ← Packet.getAttr "src_addr" packet.srcAddr
    let d ← Packet.getAttr "dst_addr" packet.dstAddr
    let r ← Packet.getAttr "route" packet.route
    .ok [{ src := s, dst := d, route := r }]
  else
    .ok []

/-- Loop body of `Client.send_traceroutes` over `dst_client ∈ peers`:
build `Packet(Packet.TRACEROUTE, self.addr, dst_client)`; when a link is
attached, `self.link.send(packet, self.addr)` spawns a `_send_helper`
thread (recorded as the spawned argument pair); then
`self.update_fn(packet.src_addr, packet.dst_addr, [])` — two attribute
lookups, then the observer call.  Returns the spawned deliveries, the
observer calls made, and the exception (if one aborts the loop). -/
def Client.sendTraceroutesAux (c : Client) :
    List Addr → List (Packet × Addr) × List ObserverCall × Option PyError
  | [] => ([], [], none)
  | dst_client :: rest =>
    let packet := Packet.init Packet.TRACEROUTE c.addr dst_client none
    let spawned : List (Packet × Addr) :=
      match c.link with
      | some _ => [Link.sendSpawn packet c.addr]
      | none => []
    let args : Except PyError (Addr × Addr) := do
      let s ← Packet.getAttr "src_addr" packet.srcAddr
      let d ← Packet.getAttr "dst_addr" packet.dstAddr
      .ok (s, d)
    match args with
    | .error e => (spawned, [], some e)
    | .ok sd =>
      let r := c.sendTraceroutesAux rest
      (spawned ++ r.1, { src := sd.1, dst := sd.2, route := [] } :: r.2.1, r.2.2)

/-- `Client.send_traceroutes()`: the loop over `self.all_clients`. -/
def Client.send_traceroutes (c : Client) :
    List (Packet × Addr) × List ObserverCall × Option PyError :=
  c.sendTraceroutesAux c.all_clients

/-! ### router.py -/

/-- A handler invocation on the `Router` subclass contract, recorded as
an event (`handle_new_link(port, endpoint, cost)` /
`handle_remove_link(port)`). -/
inductive RouterEvent where
  | newLink (port : Nat) (endpoint : Addr) (cost : Nat)
  | removeLink (port : Nat)
deriving DecidableEq, Repr

/-- The `Router` substrate state: address and the port-indexed link map
(`self.links`), kept as an association list in dict insertion order.
The `link_changes` mailbox is modelled at the call sites. -/
structure Router where
  addr : Addr
  links : List (Nat × Link)
deriving DecidableEq, Repr

/-- Python dict lookup `d[k]` (as an `Option`): the value stored at the
first — and, by dict key uniqueness, only — occurrence of key `k`. -/
def dictGet {κ α : Type} [DecidableEq κ] : List (κ × α) → κ → Option α
  | [], _ => none
  | e :: rest, k => if e.1 = k then some e.2 else dictGet rest k

/-- Python dict assignment `d[k] = v`: replace the value in place when
the key is present, otherwise append the new entry. -/
def dictSet {κ α : Type} [DecidableEq κ] (l : List (κ × α)) (k : κ) (v : α) : List (κ × α) :=
  if (dictGet l k).isSome then
    l.map (fun e => if e.1 = k then (k, v) else e)
  else
    l ++ [(k, v)]

/-- `Router.remove_link(port)`: rebuild `self.links` without `port`, then
invoke `handle_remove_link(port)`. -/
def Router.remove_link (r : Router) (port : Nat) : Router × List RouterEvent :=
  ({ r with links := r.links.filter (fun e => e.1 != port) },
   [.removeLink port])

/-- `Router.add_link(port, endpointAddr, link, cost)`: when `port` is
already in `self.links`, first `self.remove_link(port)`; then
`self.links[port] = link` and `handle_new_link(port, endpointAddr, cost)`. -/
def Router.add_link (r : Router) (port : Nat) (endpointAddr : Addr)
    (link : Link) (cost : Nat) : Router × List RouterEvent :=
  let re : Router × List RouterEvent :=
    if (dictGet r.links port).isSome then r.remove_link port else (r, [])
  ({ re.1 with links := dictSet re.1.links port link },
   re.2 ++ [.newLink port endpointAddr cost])

/-- A link-change command drained from the router's mailbox by
`Router.run`. -/
inductive LinkChange where
  | add (port : Nat) (endpoint : Addr) (link : Link) (cost : Nat)
  | remove (port : Nat)

/-- The change dispatch in `Router.run`: `("add", ...)` goes to
`add_link`, `("remove", ...)` to `remove_link`. -/
def Router.applyChange (r : Router) : LinkChange → Router × List RouterEvent
  | .add port endpoint link cost => r.add_link port endpoint link cost
  | .remove port => r.remove_link port

/-- `Router.send(port, packet)`: `self.links[port].send(packet, self.addr)`
inside `try ... except KeyError: pass`.  When the port is installed the
link spawns a `_send_helper` thread (returned as the link together with
the spawned argument pair); a missing port is a silent no-op (`none`). -/
def Router.send (r : Router) (port : Nat) (packet : Packet) :
    Option (Link × Packet × Addr) :=
  match dictGet r.links port with
  | some lk =>
    let ps := Link.sendSpawn packet r.addr
    some (lk, ps.1, ps.2)
  | none => none

/-! ### network.py -/

/-- Key of the route maps: a `(src, dst)` address pair. -/
abbrev RouteKey := Addr × Addr

/-- An entry of `Network.routes`: the `(route, is_good, time_ms)` triple
stored by `update_route`. -/
abbrev RouteEntry := List Addr × Bool × Nat

/-- Lookup in a `defaultdict(list)`: a missing key yields `[]` (the
`__getitem__` of `defaultdict` also inserts the fresh empty list under
the key, which is unobservable through later lookups and membership
tests and is not tracked). -/
def ddLookup (l : List (RouteKey × List (List Addr))) (k : RouteKey) : List (List Addr) :=
  match dictGet l k with
  | some v => v
  | none => []

/-- `Network.parse_clients(client_params, client_send_rate)`: one
`Client(addr, client_params, client_send_rate, self.update_route)` per
address in `client_params` — every client's `all_clients` is the full
client list, its own address included. -/
def Network.parse_clients (client_params : List Addr) (client_send_rate : Nat) :
    List (Addr × Client) :=
  client_params.map (fun addr => (addr, Client.init addr client_params client_send_rate))

/-- `Network.parse_correct_routes(routes_params)`: a `defaultdict(list)`
mapping `(route[0], route[-1])` to the list of whitelisted routes with
those endpoints, in input order.  (`route[0]` on an empty route would
raise `IndexError`; configuration routes are full sequences with first
element the source and last the destination, hence non-empty.) -/
def Network.parse_correct_routes (routes_params : List (List Addr)) :
    List (RouteKey × List (List Addr)) :=
  routes_params.foldl
    (fun correct_routes route =>
      match route with
      | [] => correct_routes
      | a :: rest =>
        let src := a
        let dst := (a :: rest).getLast (List.cons_ne_nil a rest)
        dictSet correct_routes (src, dst) (ddLookup correct_routes (src, dst) ++ [route]))
    []

/-- `Network.update_route(src, dst, route)` under the routes mutex, with
the wall-clock read `time_ms = int(round(time.time() * 1000))` passed in
explicitly: compute `is_good = route in self.correct_routes[(src, dst)]`;
then try to read the stored `current_time` for `(src, dst)` — on
`KeyError` store `(route, is_good, time_ms)`, otherwise store it only
when `time_ms > current_time`. -/
def Network.update_route (correct_routes : List (RouteKey × List (List Addr)))
    (routes : List (RouteKey × RouteEntry)) (src dst : Addr)
    (route : List Addr) (time_ms : Nat) : List (RouteKey × RouteEntry) :=
  let is_good := decide (route ∈ ddLookup correct_routes (src, dst))
  match dictGet routes (src, dst) with
  | some v =>
    if time_ms > v.2.2 then dictSet routes (src, dst) (route, is_good, time_ms) else routes
  | none => dictSet routes (src, dst) (route, is_good, time_ms)

/-- The single-quote character, written by code point to keep the source
free of quoting pitfalls; Python `repr` of a plain string wraps it in
these. -/
def sq : String := (Char.ofNat 39).toString

/-- Python `str.join`: `sep.join(l)`. -/
def pyJoin (sep : String) : List String → String
  | [] => ""
  | [x] => x
  | x :: y :: rest => x ++ sep ++ pyJoin sep (y :: rest)

/-- Python `str` of a list of plain strings, as interpolated by the
f-string in `get_route_string`: `['a', 'b']`-style. -/
def routeListRepr (l : List Addr) : String :=
  "[" ++ pyJoin ", " (l.map (fun a => sq ++ a ++ sq)) ++ "]"

/-- Ordered insertion used by `pySort`. -/
def strInsert (x : String) : List String → List String
  | [] => [x]
  | y :: rest => if y ≤ x then y :: strInsert x rest else x :: y :: rest

/-- Python `list.sort()` on strings: ascending lexicographic sort
(modelled as insertion sort; the claims below do not depend on the
sorting algorithm, only on the resulting list shape). -/
def pySort : List String → List String
  | [] => []
  | x :: rest => strInsert x (pySort rest)

/-- The `route_strings` list built by `Network.get_route_string`: one
line `f"{src} -> {dst}: {route} {info}"` per stored entry, with `info`
empty for a correct entry (or when `label_incorrect` is false) and
`"Incorrect Route"` otherwise; `all_correcct` tracks whether every entry
is good; the lines are sorted and the verdict line is appended —
`"\nSUCCESS: All Routes correct!"` when `all_correcct` holds and the map
is non-empty, else `"\nFAILURE: Not all routes are correct"`. -/
def Network.getRouteStrings (routes : List (RouteKey × RouteEntry))
    (label_incorrect : Bool) : List String :=
  let route_strings := routes.map (fun e =>
    let src := e.1.1
    let dst := e.1.2
    let route := e.2.1
    let is_good := e.2.2.1
    let info := if is_good || !label_incorrect then "" else "Incorrect Route"
    src ++ " -> " ++ dst ++ ": " ++ routeListRepr route ++ " " ++ info)
  let all_correcct := routes.all (fun e => e.2.2.1)
  let sorted := pySort route_strings
  if all_correcct && decide (routes.length > 0) then
    sorted ++ ["\nSUCCESS: All Routes correct!"]
  else
    sorted ++ ["\nFAILURE: Not all routes are correct"]

/-- `Network.get_route_string(label_incorrect=True)`:
`"\n".join(route_strings)`. -/
def Network.get_route_string (routes : List (RouteKey × RouteEntry))
    (label_incorrect : Bool) : String :=
  pyJoin "\n" (Network.getRouteStrings routes label_incorrect)

/-! ### Heap-level packet model

Python `Packet` instances and their `route` lists are mutable objects
with identity.  To state aliasing properties (`Packet.copy` independence,
the automatic copy in `Link.send`) the object graph is made explicit: a
heap maps object references to packet records and list references to
route lists; `Packet.__init__`, `Packet.copy` and the mutating
operations are re-read from `packet.py` at this level. -/

/-- A `Packet` instance record on the heap: the immutable-by-value
attributes plus a reference to its (mutable) `route` list object. -/
structure Obj where
  kind : Nat
  srcAddr : Addr
  dstAddr : Addr
  content : Option String
  routeRef : Nat

/-- The heap: packet objects and route-list objects, with bump
allocators. -/
structure Heap where
  objs : Nat → Obj
  lists : Nat → List Addr
  nextObj : Nat
  nextList : Nat

/-- Allocate a fresh list object. -/
def Heap.allocList (h : Heap) (l : List Addr) : Heap × Nat :=
  let h' : Heap :=
    { h with lists := fun i => if i = h.nextList then l else h.lists i,
             nextList := h.nextList + 1 }
  (h', h.nextList)

/-- Allocate a fresh packet object. -/
def Heap.allocObj (h : Heap) (o : Obj) : Heap × Nat :=
  let h' : Heap :=
    { h with objs := fun i => if i = h.nextObj then o else h.objs i,
             nextObj := h.nextObj + 1 }
  (h', h.nextObj)

/-- Heap-level `Packet.__init__`: allocate the fresh one-element route
list `[srcAddr]`, then the packet object referring to it. -/
def PacketObj.init (h : Heap) (kind : Nat) (src dst : Addr) (content : Option String) :
    Heap × Nat :=
  let hr := h.allocList [src]
  hr.1.allocObj { kind := kind, srcAddr := src, dstAddr := dst,
                  content := content, routeRef := hr.2 }

/-- The `route` list currently observable through packet object `p`. -/
def PacketObj.routeOf (h : Heap) (p : Nat) : List Addr :=
  h.lists (h.objs p).routeRef

/-- The `content` currently observable through packet object `p`. -/
def PacketObj.contentOf (h : Heap) (p : Nat) : Option String :=
  (h.objs p).content

/-- Heap-level `Packet.copy`: `content = deepcopy(self.content)` (a
string or `None`, so the same value), a fresh
`Packet(kind, srcAddr, dstAddr, content=content)`, then
`p.route = list(self.route)` — a second fresh list object holding the
elements of the original route, rebound as the new object's route. -/
def PacketObj.copy (h : Heap) (p : Nat) : Heap × Nat :=
  let o := h.objs p
  let hq := PacketObj.init h o.kind o.srcAddr o.dstAddr o.content
  let hr := hq.1.allocList (h.lists o.routeRef)
  let h' : Heap :=
    { hr.1 with objs := fun i =>
        if i = hq.2 then { hr.1.objs hq.2 with routeRef := hr.2 } else hr.1.objs i }
  (h', hq.2)

/-- Heap-level `Packet.addToRoute` / `self.route.append(addr)`: mutate
the route list object in place. -/
def PacketObj.addToRoute (h : Heap) (p : Nat) (addr : Addr) : Heap :=
  let r := (h.objs p).routeRef
  { h with lists := fun i => if i = r then h.lists r ++ [addr] else h.lists i }

/-- Mutation `p.content = c`: rebind the `content` attribute of object
`p`. -/
def PacketObj.setContent (h : Heap) (p : Nat) (c : Option String) : Heap :=
  { h with objs := fun i => if i = p then { h.objs p with content := c } else h.objs i }

/-- A valid packet reference: the object and its route list are
allocated. -/
def PacketObj.wf (h : Heap) (p : Nat) : Prop :=
  p < h.nextObj ∧ (h.objs p).routeRef < h.nextList

/-- Heap-level synchronous part of `Link.send(packet, src)`:
`p = packet.copy()` and the spawn of `_send_helper(p, src)`; returns the
heap after the copy and the spawned thread's arguments. -/
def Link.sendSpawnH (h : Heap) (packet : Nat) (src : Addr) : (Heap × Nat) × Addr :=
  (PacketObj.copy h packet, src)

/-- Packets produced by the substrate's own packet operations:
construction, `copy`, and `addToRoute` (the appending performed at each
link traversal). -/
inductive Packet.Reachable : Packet → Prop where
  | init : ∀ (kind : Nat) (src dst : Addr) (content : Option String),
      Reachable (Packet.init kind src dst content)
  | copy : ∀ {p : Packet}, Reachable p → Reachable p.copy
  | add : ∀ {p : Packet} (a : Addr), Reachable p → Reachable (p.addToRoute a)

/-- String `s` ends with the line `line`: a newline followed by `line`
is a character-wise suffix of `s`. -/
def endsWithLine (s line : String) : Prop :=
  ("\n" ++ line).data <:+ s.data

/-- An empty concrete heap, for instantiating the aliasing theorems. -/
def demoHeap : Heap :=
  { objs := fun _ => { kind := 0, srcAddr := "", dstAddr := "", content := none, routeRef := 0 },
    lists := fun _ => [], nextObj := 0, nextList := 0 }

/-- The concrete heap holding one freshly constructed packet (reference
0). -/
def demoHeap1 : Heap := (PacketObj.init demoHeap Packet.TRACEROUTE "s" "d" none).1

/-! ## Helper lemmas -/

theorem dictGet_map_set_self {κ α : Type} [DecidableEq κ] (l : List (κ × α)) (k : κ) (v : α)
    (h : (dictGet l k).isSome) :
    dictGet (l.map (fun e => if e.1 = k then (k, v) else e)) k = some v := by
  induction l with
  | nil => simp [dictGet] at h
  | cons e rest ih =>
    by_cases hek : e.1 = k
    · simp [dictGet, hek]
    · simp only [dictGet, hek, if_false] at h
      simp [dictGet, hek, ih h]

theorem dictGet_append_single {κ α : Type} [DecidableEq κ] (l : List (κ × α)) (k : κ) (v : α) :
    dictGet (l ++ [(k, v)]) k = some ((dictGet l k).getD v) := by
  induction l with
  | nil => simp [dictGet]
  | cons e rest ih =>
    by_cases hek : e.1 = k
    · simp [dictGet, hek]
    · simp [dictGet, hek, ih]

theorem dictGet_map_set_ne {κ α : Type} [DecidableEq κ] (l : List (κ × α)) (k k' : κ) (v : α)
    (h : k' ≠ k) :
    dictGet (l.map (fun e => if e.1 = k then (k, v) else e)) k' = dictGet l k' := by
  induction l with
  | nil => simp [dictGet]
  | cons e rest ih =>
    by_cases hek : e.1 = k
    · simp [dictGet, hek, Ne.symm h, ih]
    · by_cases hek' : e.1 = k'
      · simp [dictGet, hek, hek', h]
      · simp [dictGet, hek, hek', ih]

theorem dictGet_append_single_ne {κ α : Type} [DecidableEq κ] (l : List (κ × α)) (k k' : κ)
    (v : α) (h : k' ≠ k) : dictGet (l ++ [(k, v)]) k' = dictGet l k' := by
  induction l with
  | nil => simp [dictGet, Ne.symm h]
  | cons e rest ih =>
    by_cases hek' : e.1 = k'
    · simp [dictGet, hek']
    · simp [dictGet, hek', ih]

theorem dictGet_dictSet_self {κ α : Type} [DecidableEq κ] (l : List (κ × α)) (k : κ) (v : α) :
    dictGet (dictSet l k v) k = some v := by
  unfold dictSet
  cases hE : dictGet l k with
  | some w =>
    have hs : (dictGet l k).isSome := by simp [hE]
    simp only [hE, Option.isSome_some, if_true]
    exact dictGet_map_set_self l k v hs
  | none =>
    simp only [hE, Option.isSome_none, Bool.false_eq_true, if_false]
    rw [dictGet_append_single]
    simp [hE]

theorem dictGet_dictSet_ne {κ α : Type} [DecidableEq κ] (l : List (κ × α)) (k k' : κ) (v : α)
    (h : k' ≠ k) : dictGet (dictSet l k v) k' = dictGet l k' := by
  unfold dictSet
  by_cases hs : (dictGet l k).isSome
  · simp only [hs, if_true]
    exact dictGet_map_set_ne l k k' v h
  · simp only [hs, Bool.false_eq_true, if_false]
    exact dictGet_append_single_ne l k k' v h

/-! ## Claims -/

/-- C1.  The claim states that `Link.send(p, src)` deep-copies `p`,
appends the peer address to the copy's route, and after the directional
latency enqueues exactly that copy toward the peer, where `recv` returns
it.  On the code this fails: `_send_helper` invokes
`packet.add_to_route(...)`, an attribute `packet.py` does not define
(its method is `addToRoute`), so the spawned thread raises
`AttributeError` before reaching the queue `put` — nothing is ever
enqueued and the peer's `recv` keeps returning `None`.  Evaluated here
at a concrete link and packet, in both directions. -/
theorem claim_C1_send_raises_attribute_error :
    Link.sendEffect (Link.init "A" "B" 1 1 100)
        (Packet.init Packet.TRACEROUTE "A" "B" none) "A"
      = .error (.attributeError "Packet" "add_to_route")
    ∧ Link.sendEffect (Link.init "A" "B" 1 1 100)
        (Packet.init Packet.TRACEROUTE "B" "A" none) "B"
      = .error (.attributeError "Packet" "add_to_route")
    ∧ (Link.recv (Link.init "A" "B" 1 1 100) "B").1 = none := by
  refine ⟨?_, ?_, ?_⟩ <;> rfl

/-- C2.  The claim states that `Client.handle_packet` invokes the
observer with (source address, destination address, route) on a
TRACEROUTE packet and does nothing on a ROUTING packet.  The ROUTING
half holds (`packet.kind` is defined, the guard fails, nothing
happens), but on a TRACEROUTE packet the code reads `packet.src_addr`,
an attribute `packet.py` does not define (its attribute is `srcAddr`),
so `handle_packet` raises `AttributeError` and the observer is never
invoked.  Evaluated at a concrete packet of each kind. -/
theorem claim_C2_handle_packet_raises :
    Client.handle_packet (Packet.init Packet.TRACEROUTE "c1" "c2" none)
      = .error (.attributeError "Packet" "src_addr")
    ∧ Client.handle_packet (Packet.init Packet.ROUTING "c1" "c2" (some "data"))
      = .ok [] := by
  exact ⟨rfl, rfl⟩

/-- C6.  The claim states that each `send_traceroutes` call emits one
TRACEROUTE packet per peer and reports an empty route for each (src,
dst) pair, the report happening even without an attached link.  On the
code the loop body reads `packet.src_addr`, an attribute `packet.py`
does not define (its attribute is `srcAddr`), so the very first
iteration raises `AttributeError` before any `update_fn` call: no empty
route is ever reported, with or without a link, and at most one packet
(for the first listed client — the sender itself included in
`all_clients` by `Network.parse_clients`) has been handed to the link.
Evaluated at a concrete two-client configuration, without and with an
attached link. -/
theorem claim_C6_send_traceroutes_raises :
    Client.send_traceroutes (Client.init "c1" ["c1", "c2"] 1000)
      = ([], [], some (.attributeError "Packet" "src_addr"))
    ∧ Client.send_traceroutes
        { Client.init "c1" ["c1", "c2"] 1000 with link := some (Link.init "c1" "r1" 1 1 100) }
      = ([({ kind := Packet.TRACEROUTE, srcAddr := "c1", dstAddr := "c1",
             content := none, route := ["c1"] }, "c1")],
         [], some (.attributeError "Packet" "src_addr"))
    ∧ (Network.parse_clients ["c1", "c2"] 1000).map
        (fun e => e.2.all_clients) = [["c1", "c2"], ["c1", "c2"]] := by
  refine ⟨rfl, rfl, rfl⟩

/-- C3.  `Network.update_route(src, dst, route)` at wall-clock `t`
stores `(route, is_good, t)` when the `(src, dst)` key is absent or the
stored timestamp is strictly smaller than `t`; when `t` is equal to or
earlier than the stored timestamp the routes map is left unchanged; and
no other key is ever affected. -/
theorem claim_C3_youngest_wins (correct_routes : List (RouteKey × List (List Addr)))
    (routes : List (RouteKey × RouteEntry)) (src dst : Addr) (route : List Addr) (t : Nat) :
    (dictGet routes (src, dst) = none →
      dictGet (Network.update_route correct_routes routes src dst route t) (src, dst)
        = some (route, decide (route ∈ ddLookup correct_routes (src, dst)), t))
    ∧ (∀ e : RouteEntry, dictGet routes (src, dst) = some e → e.2.2 < t →
      dictGet (Network.update_route correct_routes routes src dst route t) (src, dst)
        = some (route, decide (route ∈ ddLookup correct_routes (src, dst)), t))
    ∧ (∀ e : RouteEntry, dictGet routes (src, dst) = some e → t ≤ e.2.2 →
      Network.update_route correct_routes routes src dst route t = routes)
    ∧ (∀ k : RouteKey, k ≠ (src, dst) →
      dictGet (Network.update_route correct_routes routes src dst route t) k
        = dictGet routes k) := by
  unfold Network.update_route
  refine ⟨?_, ?_, ?_, ?_⟩
  · intro h
    simp only [h]
    exact dictGet_dictSet_self routes (src, dst) _
  · intro e he ht
    simp only [he]
    rw [if_pos ht]
    exact dictGet_dictSet_self routes (src, dst) _
  · intro e he ht
    simp only [he]
    rw [if_neg (by omega)]
  · intro k hk
    cases he : dictGet routes (src, dst) with
    | none =>
      simp only [he]
      exact dictGet_dictSet_ne routes (src, dst) k _ hk
    | some e =>
      simp only [he]
      by_cases ht : t > e.2.2
      · rw [if_pos ht]
        exact dictGet_dictSet_ne routes (src, dst) k _ hk
      · rw [if_neg ht]

/-- C3 witness: youngest-wins at concrete inputs — a fresh key is
inserted, a strictly newer timestamp replaces, an equal timestamp is
dropped. -/
theorem claim_C3_witness :
    dictGet (Network.update_route [(("a", "b"), [["a", "b"]])] [] "a" "b" ["a", "b"] 5)
        ("a", "b") = some (["a", "b"], true, 5)
    ∧ dictGet (Network.update_route [] [(("a", "b"), (["a"], false, 10))] "a" "b"
        ["a", "b"] 11) ("a", "b") = some (["a", "b"], false, 11)
    ∧ Network.update_route [] [(("a", "b"), (["a"], false, 10))] "a" "b" ["a", "b"] 10
      = [(("a", "b"), (["a"], false, 10))] :=
  ⟨(claim_C3_youngest_wins [(("a", "b"), [["a", "b"]])] [] "a" "b" ["a", "b"] 5).1 rfl,
   (claim_C3_youngest_wins [] [(("a", "b"), (["a"], false, 10))] "a" "b" ["a", "b"] 11).2.1
     (["a"], false, 10) rfl (by decide),
   (claim_C3_youngest_wins [] [(("a", "b"), (["a"], false, 10))] "a" "b" ["a", "b"] 10).2.2.1
     (["a"], false, 10) rfl (by decide)⟩

/-- C10.  For a `(src, dst)` pair that appears in no configured correct
route, `update_route` does not fail: the `defaultdict` lookup yields
`[]`, the membership test is false, and the observation — in particular
an empty route — is recorded with `is_correct = false`. -/
theorem claim_C10_unknown_pair_incorrect (correct_routes : List (RouteKey × List (List Addr)))
    (routes : List (RouteKey × RouteEntry)) (src dst : Addr) (route : List Addr) (t : Nat)
    (h : dictGet correct_routes (src, dst) = none) :
    ddLookup correct_routes (src, dst) = []
    ∧ decide (route ∈ ddLookup correct_routes (src, dst)) = false
    ∧ (dictGet routes (src, dst) = none →
        dictGet (Network.update_route correct_routes routes src dst route t) (src, dst)
          = some (route, false, t)) := by
  have hdd : ddLookup correct_routes (src, dst) = [] := by
    unfold ddLookup
    simp [h]
  have hmem : decide (route ∈ ddLookup correct_routes (src, dst)) = false := by
    rw [hdd]
    simp
  refine ⟨hdd, hmem, ?_⟩
  intro hr
  have := (claim_C3_youngest_wins correct_routes routes src dst route t).1 hr
  rwa [hmem] at this

/-- C10 witness: an empty route for a pair outside the whitelist is
stored as incorrect. -/
theorem claim_C10_witness :
    ddLookup [] ("x", "y") = []
    ∧ dictGet (Network.update_route [] [] "x" "y" [] 7) ("x", "y") = some ([], false, 7) :=
  ⟨(claim_C10_unknown_pair_incorrect [] [] "x" "y" [] 7 rfl).1,
   (claim_C10_unknown_pair_incorrect [] [] "x" "y" [] 7 rfl).2.2 rfl⟩

/-- C7.  Processing an `("add", port, endpoint, link, cost)` command:
when the port is occupied the old entry is removed first
(`handle_remove_link(port)` fires), then the link is installed and
`handle_new_link(port, endpoint, cost)` fires; afterwards the links map
holds exactly the new link at that port. -/
theorem claim_C7_add_link (r : Router) (port : Nat) (ep : Addr) (lk : Link) (cost : Nat) :
    dictGet (r.add_link port ep lk cost).1.links port = some lk
    ∧ ((dictGet r.links port).isSome →
        (r.add_link port ep lk cost).2
          = [RouterEvent.removeLink port, RouterEvent.newLink port ep cost])
    ∧ (dictGet r.links port = none →
        (r.add_link port ep lk cost).2 = [RouterEvent.newLink port ep cost])
    ∧ Router.applyChange r (LinkChange.add port ep lk cost) = r.add_link port ep lk cost := by
  refine ⟨?_, ?_, ?_, rfl⟩
  · unfold Router.add_link Router.remove_link
    by_cases hs : (dictGet r.links port).isSome
    · simp only [hs, if_true]
      exact dictGet_dictSet_self _ port lk
    · simp only [hs, Bool.false_eq_true, if_false]
      exact dictGet_dictSet_self _ port lk
  · intro hs
    unfold Router.add_link Router.remove_link
    simp only [hs, if_true]
    rfl
  · intro hn
    unfold Router.add_link Router.remove_link
    simp only [hn, Option.isSome_none, Bool.false_eq_true, if_false]
    rfl

/-- C7 witness: adding a link on a free port of a concrete router
installs it and fires exactly `handle_new_link`. -/
theorem claim_C7_witness :
    dictGet ((Router.mk "r1" []).add_link 0 "b" (Link.init "r1" "b" 1 1 100) 3).1.links 0
      = some (Link.init "r1" "b" 1 1 100)
    ∧ ((Router.mk "r1" []).add_link 0 "b" (Link.init "r1" "b" 1 1 100) 3).2
      = [RouterEvent.newLink 0 "b" 3] :=
  ⟨(claim_C7_add_link (Router.mk "r1" []) 0 "b" (Link.init "r1" "b" 1 1 100) 3).1,
   (claim_C7_add_link (Router.mk "r1" []) 0 "b" (Link.init "r1" "b" 1 1 100) 3).2.2.1 rfl⟩

/-- C8.  Unknown endpoints are silent no-ops: `Link.send` from a `src`
that is neither endpoint leaves both queues untouched and raises
nothing (the helper thread falls through both branches), `Link.recv`
for a `dst` that is neither endpoint returns `None`, and `Router.send`
on an uninstalled port is a silent no-op. -/
theorem claim_C8_unknown_endpoint_noop (lk : Link) (p : Packet) (src dst : Addr)
    (r : Router) (port : Nat)
    (h1 : src ≠ lk.e1) (h2 : src ≠ lk.e2) (h3 : dst ≠ lk.e1) (h4 : dst ≠ lk.e2)
    (h5 : dictGet r.links port = none) :
    Link.sendEffect lk p src = .ok lk
    ∧ Link.recv lk dst = (none, lk)
    ∧ Router.send r port p = none := by
  refine ⟨?_, ?_, ?_⟩
  · unfold Link.sendEffect Link.sendHelper Link.sendSpawn
    simp [h1, h2]
  · unfold Link.recv
    simp [h3, h4]
  · unfold Router.send
    simp [h5]

/-- C8 witness: a concrete link with endpoints A and B, a stranger
address C as sender and D as receiver, and an empty router. -/
theorem claim_C8_witness :
    Link.sendEffect (Link.init "A" "B" 1 1 100)
        (Packet.init Packet.ROUTING "C" "B" (some "x")) "C"
      = .ok (Link.init "A" "B" 1 1 100)
    ∧ Link.recv (Link.init "A" "B" 1 1 100) "D" = (none, Link.init "A" "B" 1 1 100)
    ∧ Router.send (Router.mk "r1" []) 5 (Packet.init Packet.ROUTING "C" "B" (some "x"))
      = none :=
  claim_C8_unknown_endpoint_noop (Link.init "A" "B" 1 1 100)
    (Packet.init Packet.ROUTING "C" "B" (some "x")) "C" "D" (Router.mk "r1" []) 5
    (by decide) (by decide) (by decide) (by decide) rfl

/-- C9.  For every packet built by the substrate operations, the first
element of `route` equals `srcAddr`; construction initializes `route`
to `[srcAddr]`, `copy` preserves the route (and the source address),
and `addToRoute` only extends the list at the end. -/
theorem claim_C9_route_head_invariant (p : Packet) (h : Packet.Reachable p) :
    p.route.head? = some p.srcAddr
    ∧ (∀ (k : Nat) (s d : Addr) (c : Option String), (Packet.init k s d c).route = [s])
    ∧ (∀ q : Packet, q.copy.route = q.route ∧ q.copy.srcAddr = q.srcAddr)
    ∧ (∀ (q : Packet) (a : Addr),
        (q.addToRoute a).route = q.route ++ [a] ∧ (q.addToRoute a).srcAddr = q.srcAddr) := by
  refine ⟨?_, fun k s d c => rfl, fun q => ⟨rfl, rfl⟩, fun q a => ⟨rfl, rfl⟩⟩
  induction h with
  | init k s d c => rfl
  | copy _ ih => exact ih
  | add a _ ih =>
    rename_i q _
    cases hr : q.route with
    | nil => rw [hr] at ih; simp at ih
    | cons x t =>
      rw [hr] at ih
      simp only [List.head?_cons, Option.some.injEq] at ih
      show (q.route ++ [a]).head? = some q.srcAddr
      rw [hr]
      simp [ih]

/-- C9 witness: the invariant at a freshly constructed packet. -/
theorem claim_C9_witness :
    (Packet.init Packet.TRACEROUTE "s" "d" none).route.head?
      = some (Packet.init Packet.TRACEROUTE "s" "d" none).srcAddr :=
  (claim_C9_route_head_invariant (Packet.init Packet.TRACEROUTE "s" "d" none)
    (Packet.Reachable.init Packet.TRACEROUTE "s" "d" none)).1

theorem pyJoin_append_single (sep : String) (xs : List String) (t : String) :
    ∃ pre : List Char, (pyJoin sep (xs ++ [t])).data = pre ++ t.data := by
  induction xs with
  | nil => exact ⟨[], by simp [pyJoin]⟩
  | cons x rest ih =>
    obtain ⟨pre, hpre⟩ := ih
    cases rest with
    | nil =>
      refine ⟨x.data ++ sep.data, ?_⟩
      simp [pyJoin, String.data_append, List.append_assoc]
    | cons y rest2 =>
      refine ⟨x.data ++ sep.data ++ pre, ?_⟩
      simp only [List.cons_append, pyJoin, String.data_append] at hpre ⊢
      simp [hpre, List.append_assoc]

theorem endsWith_join_tail (xs : List String) (t : String) :
    t.data <:+ (pyJoin "\n" (xs ++ [t])).data := by
  obtain ⟨pre, hpre⟩ := pyJoin_append_single "\n" xs t
  rw [hpre]
  exact List.suffix_append pre t.data

/-- C5.  The report produced by `get_route_string` ends with the line
`SUCCESS: All Routes correct!` iff the routes map is non-empty and
every stored entry is marked correct; otherwise it ends with the line
`FAILURE: Not all routes are correct`. -/
theorem claim_C5_report_verdict (routes : List (RouteKey × RouteEntry)) :
    (endsWithLine (Network.get_route_string routes true) "SUCCESS: All Routes correct!"
      ↔ routes ≠ [] ∧ routes.all (fun e => e.2.2.1) = true)
    ∧ (¬(routes ≠ [] ∧ routes.all (fun e => e.2.2.1) = true) →
        endsWithLine (Network.get_route_string routes true)
          "FAILURE: Not all routes are correct") := by
  simp only [Network.get_route_string, Network.getRouteStrings]
  by_cases hcond : routes ≠ [] ∧ routes.all (fun e => e.2.2.1) = true
  · obtain ⟨hne, hgood⟩ := hcond
    have hlen : 0 < routes.length := List.length_pos.mpr hne
    rw [if_pos (by simp [hgood, hlen])]
    have hends : endsWithLine
        (pyJoin "\n"
          (pySort (routes.map (fun e =>
            let info := if e.2.2.1 || !true then "" else "Incorrect Route"
            e.1.1 ++ " -> " ++ e.1.2 ++ ": " ++ routeListRepr e.2.1 ++ " " ++ info))
           ++ ["\nSUCCESS: All Routes correct!"]))
        "SUCCESS: All Routes correct!" := by
      unfold endsWithLine
      exact endsWith_join_tail _ "\nSUCCESS: All Routes correct!"
    exact ⟨⟨fun _ => ⟨hne, hgood⟩, fun _ => hends⟩, fun hc => absurd ⟨hne, hgood⟩ hc⟩
  · have hc : (routes.all (fun e => e.2.2.1) && decide (routes.length > 0)) = false := by
      rcases not_and_or.mp hcond with hne | hgood
      · have : routes = [] := not_not.mp hne
        subst this
        simp
      · have hg : routes.all (fun e => e.2.2.1) = false := by
          simpa using hgood
        simp [hg]
    rw [if_neg (by simp [hc])]
    have hfail : endsWithLine
        (pyJoin "\n"
          (pySort (routes.map (fun e =>
            let info := if e.2.2.1 || !true then "" else "Incorrect Route"
            e.1.1 ++ " -> " ++ e.1.2 ++ ": " ++ routeListRepr e.2.1 ++ " " ++ info))
           ++ ["\nFAILURE: Not all routes are correct"]))
        "FAILURE: Not all routes are correct" := by
      unfold endsWithLine
      exact endsWith_join_tail _ "\nFAILURE: Not all routes are correct"
    refine ⟨⟨fun hS => ?_, fun hr => absurd hr hcond⟩, fun _ => hfail⟩
    exfalso
    unfold endsWithLine at hS hfail
    rcases List.suffix_or_suffix_of_suffix hS hfail with h | h
    · exact absurd h (by decide)
    · exact absurd h (by decide)

/-- C5 witness: the success verdict at a concrete one-entry correct
map, via the equivalence. -/
theorem claim_C5_witness :
    endsWithLine (Network.get_route_string [(("a", "b"), (["a", "b"], true, 5))] true)
      "SUCCESS: All Routes correct!" :=
  (claim_C5_report_verdict [(("a", "b"), (["a", "b"], true, 5))]).1.mpr
    ⟨by decide, by decide⟩

/-- C4.  `Packet.copy` returns an independent object: the copy is a
distinct reference whose route and content read equal to the
original's, and mutating the route list or the content through either
object is not observable through the other; `Link.send` hands the
spawned delivery exactly this copy, so mutations of the sender-retained
packet after `send` returns cannot change what would be delivered. -/
theorem claim_C4_copy_isolation (h : Heap) (p : Nat) (hwf : PacketObj.wf h p) :
    (PacketObj.copy h p).2 ≠ p
    ∧ PacketObj.routeOf (PacketObj.copy h p).1 (PacketObj.copy h p).2 = PacketObj.routeOf h p
    ∧ PacketObj.contentOf (PacketObj.copy h p).1 (PacketObj.copy h p).2
      = PacketObj.contentOf h p
    ∧ PacketObj.routeOf (PacketObj.copy h p).1 p = PacketObj.routeOf h p
    ∧ (∀ a : Addr,
        PacketObj.routeOf
            (PacketObj.addToRoute (PacketObj.copy h p).1 (PacketObj.copy h p).2 a) p
          = PacketObj.routeOf (PacketObj.copy h p).1 p)
    ∧ (∀ a : Addr,
        PacketObj.routeOf
            (PacketObj.addToRoute (PacketObj.copy h p).1 p a) (PacketObj.copy h p).2
          = PacketObj.routeOf (PacketObj.copy h p).1 (PacketObj.copy h p).2)
    ∧ (∀ c : Option String,
        PacketObj.contentOf
            (PacketObj.setContent (PacketObj.copy h p).1 (PacketObj.copy h p).2 c) p
          = PacketObj.contentOf (PacketObj.copy h p).1 p)
    ∧ (∀ c : Option String,
        PacketObj.contentOf
            (PacketObj.setContent (PacketObj.copy h p).1 p c) (PacketObj.copy h p).2
          = PacketObj.contentOf (PacketObj.copy h p).1 (PacketObj.copy h p).2)
    ∧ (∀ src : Addr, Link.sendSpawnH h p src = (PacketObj.copy h p, src)) := by
  obtain ⟨hp, hr⟩ := hwf
  have h1 : p ≠ h.nextObj := Nat.ne_of_lt hp
  have h2 : h.nextObj ≠ p := Ne.symm h1
  have h3 : (h.objs p).routeRef ≠ h.nextList := Nat.ne_of_lt hr
  have h4 : (h.objs p).routeRef ≠ h.nextList + 1 := by omega
  have h5 : h.nextList + 1 ≠ (h.objs p).routeRef := Ne.symm h4
  have h6 : h.nextList + 1 ≠ h.nextList := by omega
  refine ⟨?_, ?_, ?_, ?_, ?_, ?_, ?_, ?_, fun src => rfl⟩ <;>
    simp [PacketObj.copy, PacketObj.init, Heap.allocList, Heap.allocObj,
      PacketObj.routeOf, PacketObj.contentOf, PacketObj.addToRoute,
      PacketObj.setContent, h1, h2, h3, h4, h5, h6]

/-- C4 witness: copy isolation at the concrete one-packet heap. -/
theorem claim_C4_witness :
    (PacketObj.copy demoHeap1 0).2 ≠ 0
    ∧ PacketObj.routeOf (PacketObj.copy demoHeap1 0).1 (PacketObj.copy demoHeap1 0).2
      = PacketObj.routeOf demoHeap1 0
    ∧ PacketObj.routeOf
        (PacketObj.addToRoute (PacketObj.copy demoHeap1 0).1 (PacketObj.copy demoHeap1 0).2 "x") 0
      = PacketObj.routeOf (PacketObj.copy demoHeap1 0).1 0 :=
  ⟨(claim_C4_copy_isolation demoHeap1 0 ⟨by decide, by decide⟩).1,
   (claim_C4_copy_isolation demoHeap1 0 ⟨by decide, by decide⟩).2.1,
   (claim_C4_copy_isolation demoHeap1 0 ⟨by decide, by decide⟩).2.2.2.2.1 "x"⟩

end Routing
